import Mathlib

/-
  Verification development for SNOWAppInterrogator.py, a CLI script that
  queries a ServiceNow-style REST API over HTTP.

  The definitions below are a shallow embedding of the script's
  record-retrieval core (`getAllTableRecords`), its create path
  (`createRecord`), the XML payload builder (`BuildXML`), and the
  business-rule heuristic (`identifyCustomBusinessRules`).

  Modelling conventions:
  * Network effects are made explicit: the outcome of the `requests.get` /
    `requests.post` call (an exception or a response) is an argument of the
    embedded function, and the request actually issued is described by a
    separate `RequestSpec` value.
  * `exit()` and an uncaught exception are distinct terminal results
    (`FetchResult.exited` / `FetchResult.crashed`), each carrying the log
    lines and stdout lines produced on the way.
  * `response.json()` is modelled by the `json : Option Json` field of a
    response: `some v` when the body decodes to `v`, `none` when decoding
    raises `json.decoder.JSONDecodeError`.
  * `requests.Response.headers` is modelled as a partial map
    `String → Option String`; a `none` lookup corresponds to the `KeyError`
    raised by an absent header.
  * `response.raise_for_status()` raises `requests.exceptions.HTTPError`
    exactly for status codes in [400, 600); the text of that error starts
    with the decimal status code, as in the requests library
    ("%d Client Error ..." / "%d Server Error ...").
-/

/- ## JSON values (as decoded by Python's json module) -/

mutual

/-- JSON values as decoded by Python's `json` module.  Object fields keep
their order (Python dicts preserve insertion order); numbers are modelled
as integers. -/
inductive Json where
  | null : Json
  | bool (b : Bool) : Json
  | num (n : Int) : Json
  | str (s : String) : Json
  | arr (elems : JsonArr) : Json
  | obj (fields : JsonObj) : Json

/-- A JSON array: an ordered sequence of JSON values. -/
inductive JsonArr where
  | nil : JsonArr
  | cons (hd : Json) (tl : JsonArr) : JsonArr

/-- JSON object fields: an ordered association of keys to JSON values. -/
inductive JsonObj where
  | nil : JsonObj
  | cons (key : String) (val : Json) (tl : JsonObj) : JsonObj

end

deriving instance DecidableEq for Json
deriving instance DecidableEq for JsonArr
deriving instance DecidableEq for JsonObj

/-- The elements of a JSON array as a Lean list. -/
def JsonArr.toList : JsonArr → List Json
  | .nil => []
  | .cons x xs => x :: xs.toList

/-- The fields of a JSON object as a Lean association list. -/
def JsonObj.toList : JsonObj → List (String × Json)
  | .nil => []
  | .cons k v fs => (k, v) :: fs.toList

/-- Key lookup in JSON object fields (first match wins; decoded Python
dicts have unique keys). -/
def JsonObj.lookup : JsonObj → String → Option Json
  | .nil, _ => none
  | .cons k v fs, key => if k = key then some v else fs.lookup key

/-- `d[k]` on a decoded JSON value: defined on objects; on any other value
a Python subscript raises, modelled as `none`. -/
def Json.lookup : Json → String → Option Json
  | .obj fields, k => fields.lookup k
  | _, _ => none

/-- The single-quote character, used by Python's `repr` of strings. -/
def pySQ : String := String.singleton (Char.ofNat 39)

mutual

/-- Python's `repr` of a decoded JSON value, as produced by `'%s' % v`
formatting of the object returned by `response.json()` (strings in single
quotes, `None`/`True`/`False`, `\x7b...\x7d` for dicts).  Escaping inside
string contents is not modelled. -/
def Json.pyRepr : Json → String
  | .null => "None"
  | .bool true => "True"
  | .bool false => "False"
  | .num n => toString n
  | .str s => pySQ ++ s ++ pySQ
  | .arr elems => "[" ++ JsonArr.pyReprItems elems ++ "]"
  | .obj fields => "\x7b" ++ JsonObj.pyReprItems fields ++ "\x7d"

/-- Comma-separated `repr`s of array elements. -/
def JsonArr.pyReprItems : JsonArr → String
  | .nil => ""
  | .cons x .nil => Json.pyRepr x
  | .cons x xs => Json.pyRepr x ++ ", " ++ JsonArr.pyReprItems xs

/-- Comma-separated `key: value` `repr`s of object fields. -/
def JsonObj.pyReprItems : JsonObj → String
  | .nil => ""
  | .cons k v .nil => pySQ ++ k ++ pySQ ++ ": " ++ Json.pyRepr v
  | .cons k v fs => pySQ ++ k ++ pySQ ++ ": " ++ Json.pyRepr v ++ ", " ++ JsonObj.pyReprItems fs

end

/- ## XML payloads (xml.etree.ElementTree) -/

/-- An XML element as built with `xml.etree.ElementTree`: a tag, optional
text, and child elements (attributes are not used by the script). -/
inductive Xml where
  | element (tag : String) (text : Option String) (children : List Xml)

mutual

/-- Serialization of an element, as `ET.tostring` renders the trees built
by the script (every element here has text or children, so no self-closing
form arises). -/
def Xml.serialize : Xml → String
  | .element tag text children =>
    "<" ++ tag ++ ">" ++ text.getD "" ++ Xml.serializeList children ++ "</" ++ tag ++ ">"

/-- Serialization of a list of sibling elements. -/
def Xml.serializeList : List Xml → String
  | [] => ""
  | x :: xs => Xml.serialize x ++ Xml.serializeList xs

end

/-- The element tree built by `BuildXML`: a `request` element containing an
`entry` with `short_description`, `urgency` and `impact` children. -/
def buildXMLTree : Xml :=
  .element "request" none
    [.element "entry" none
      [ .element "short_description" (some "The sky is falling!") []
      , .element "urgency" (some "2") []
      , .element "impact" (some "2") [] ]]

/-- `BuildXML()`: serializes the fixed element tree; the function takes no
arguments in the source. -/
def BuildXML : String := Xml.serialize buildXMLTree

/- ## Connection parameters, responses, request outcomes -/

/-- The parsed command-line arguments consumed by the script
(`args.instance`, `args.username`, `args.password`, `args.application`).
`instanceUrl` is `args.instance` (renamed: `instance` is reserved). -/
structure Args where
  instanceUrl : String
  username : String
  password : String
  application : String
deriving DecidableEq

/-- An HTTP response, reduced to what the script inspects: the status code,
the outcome of `response.json()`, and the response headers as a partial
map. -/
structure Response where
  status : Nat
  json : Option Json
  headers : String → Option String

/-- An exception raised inside the `try` block, reduced to the class tests
performed by the `except` clauses.  `isHTTPError` / `isConnectionError`
model `isinstance` checks against `requests.exceptions.HTTPError` /
`requests.exceptions.ConnectionError`; every modelled exception is a
`requests.exceptions.RequestException`.  `msg` is `str(e)`. -/
structure ReqException where
  isHTTPError : Bool
  isConnectionError : Bool
  msg : String

/-- The outcome of the `requests.get` / `requests.post` call itself:
either an exception escaped the call, or a response object was returned. -/
inductive GetOutcome where
  | exn (e : ReqException)
  | resp (r : Response)

/-- The observable result of running one of the fetch routines:
`returns` - the function returned decoded data to its caller;
`exited` - `exit()` was called (normal "fail fast" termination);
`crashed` - an exception escaped the function uncaught (also terminates
the process, but without reaching the branch's own `exit()` call).
Both log lines and stdout lines produced before termination are kept. -/
inductive FetchResult where
  | returns (data : Json) (logs : List String)
  | exited (logs : List String) (prints : List String)
  | crashed (logs : List String) (prints : List String) (exn : String)
deriving DecidableEq

/-- The data handed back to the caller, if any. -/
def FetchResult.returnedData : FetchResult → Option Json
  | .returns d _ => some d
  | _ => none

/-- Whether the process terminated (by `exit()` or by an uncaught
exception) instead of returning to the caller. -/
def FetchResult.terminates : FetchResult → Bool
  | .returns _ _ => false
  | _ => true

/-- The lines printed to stdout before the function ended. -/
def FetchResult.printedLines : FetchResult → List String
  | .returns _ _ => []
  | .exited _ p => p
  | .crashed _ p _ => p

/-- The lines written to the log before the function ended. -/
def FetchResult.logLines : FetchResult → List String
  | .returns _ l => l
  | .exited l _ => l
  | .crashed l _ _ => l

/-- The coarse classification of a result: returned / exited / crashed. -/
inductive OutcomeKind where
  | returnedValue : OutcomeKind
  | exitedProcess : OutcomeKind
  | crashedProcess : OutcomeKind
deriving DecidableEq

/-- The coarse classification of a `FetchResult`. -/
def FetchResult.kind : FetchResult → OutcomeKind
  | .returns _ _ => .returnedValue
  | .exited _ _ => .exitedProcess
  | .crashed _ _ _ => .crashedProcess

/- ## Message strings of the script -/

/-- URL construction shared by both paths:
`'%s/api/now/table/%s' % (args.instance, application)`. -/
def tableUrl (instanceUrl application : String) : String :=
  instanceUrl ++ "/api/now/table/" ++ application

/-- `log.info("Retrieving all %s records..." % args.application)` - note
the source formats `args.application`, not the `application` parameter. -/
def retrievingMsg (args : Args) : String :=
  "Retrieving all " ++ args.application ++ " records..."

/-- `log.info("Creating %s record..." % args.application)`. -/
def creatingMsg (args : Args) : String :=
  "Creating " ++ args.application ++ " record..."

/-- `log.info('Successfully retrieved all %s records ' % args.application)`
(both paths use this text, trailing space included). -/
def successMsg (args : Args) : String :=
  "Successfully retrieved all " ++ args.application ++ " records "

/-- The generic decode-failure message, logged and printed. -/
def decodeFailMsg : String :=
  "A problem occured decoding the response from ServiceNow."

/-- The HTML-specific hint.  The log call and the print call concatenate
their adjacent string literals to this same text. -/
def htmlHintMsg : String :=
  "A json object was not returned. Verify that your instance is active and try again."

/-- The generic connectivity sentence shared by both connection-error
printouts. -/
def connectionHintText : String :=
  "There seems to be something wrong with your internet connection."

/-- The connection-error printout of `getAllTableRecords` (two adjacent
string literals, single separating space). -/
def getConnectionErrMsg (emsg : String) : String :=
  connectionHintText ++ " Double check your connection and script parameters. -- " ++ emsg

/-- The connection-error printout of `createRecord`: its literal uses a
backslash line-continuation inside the string, so the indentation of the
continuation line (eight spaces) is part of the message. -/
def createConnectionErrMsg (emsg : String) : String :=
  connectionHintText ++ " " ++ "        Double check your connection and script parameters. -- " ++ emsg

/-- The generic `requests.exceptions.RequestException` printout. -/
def requestErrMsg (emsg : String) : String :=
  "There is an issue with your connection to ServiceNow. -- " ++ emsg

/-- `str(e)` of the `HTTPError` raised by `raise_for_status`, which starts
with the decimal status code (the reason phrase of the requests library is
not modelled). -/
def httpErrorText (status : Nat) (url : String) : String :=
  if status < 500 then
    toString status ++ " Client Error for url: " ++ url
  else
    toString status ++ " Server Error for url: " ++ url

/- ## The requests issued -/

/-- The parameters of the HTTP request handed to the requests library. -/
structure RequestSpec where
  method : String
  url : String
  authUser : String
  authPass : String
  headers : List (String × String)
  params : String
  body : Option String
deriving DecidableEq

/-- The GET request issued by `getAllTableRecords`:
`requests.get(url, auth=(args.username, args.password), headers=headers,
params=query)` with `headers = {"Accept": "application/json"}`. -/
def getAllTableRecordsRequest (args : Args) (application : String) (query : String) : RequestSpec :=
  { method := "GET"
    url := tableUrl args.instanceUrl application
    authUser := args.username
    authPass := args.password
    headers := [("Accept", "application/json")]
    params := query
    body := none }

/-- The POST request issued by `createRecord`: same URL scheme, headers
`{"Content-Type": "application/xml", "Accept": "application/json"}`, and
`data=BuildXML()` as the payload. -/
def createRecordRequest (args : Args) (application : String) (query : String) : RequestSpec :=
  { method := "POST"
    url := tableUrl args.instanceUrl application
    authUser := args.username
    authPass := args.password
    headers := [("Content-Type", "application/xml"), ("Accept", "application/json")]
    params := query
    body := some BuildXML }

/- ## Outcome classification (shared by both paths) -/

/-- `response.raise_for_status()`: raises an `HTTPError` exactly for
status codes in [400, 600). -/
def raiseForStatus (r : Response) (url : String) : Option ReqException :=
  if 400 ≤ r.status ∧ r.status < 600 then
    some { isHTTPError := true, isConnectionError := false
           msg := httpErrorText r.status url }
  else none

/-- Which `except` clause catches a given exception.  The clauses are
tried in source order: `HTTPError` first, then `ConnectionError`, then
`RequestException`. -/
inductive RequestErrorClass where
  | httpErrorClass : RequestErrorClass
  | connectionErrorClass : RequestErrorClass
  | requestErrorClass : RequestErrorClass
deriving DecidableEq

/-- The `except` ladder of both fetch routines, in source order. -/
def classifyRequestError (e : ReqException) : RequestErrorClass :=
  if e.isHTTPError then .httpErrorClass
  else if e.isConnectionError then .connectionErrorClass
  else .requestErrorClass

/-- The bodies of the three `except` clauses.  `connErrPrint` is the
path-specific connection-error printout.  `respOpt` is the `response`
variable: `none` when `requests.get` itself raised (the variable is then
unbound, so the HTTPError clause crashes with an `UnboundLocalError` while
evaluating `response.json()` for its log call); when a response exists,
the HTTPError clause evaluates `response.json()` inside its own log call
and crashes with a `JSONDecodeError` if the error body is not JSON. -/
def handleRequestError (connErrPrint : String → String) (logs : List String)
    (respOpt : Option Response) (e : ReqException) : FetchResult :=
  match classifyRequestError e with
  | .httpErrorClass =>
    match respOpt with
    | none => .crashed logs [] "UnboundLocalError: response"
    | some r =>
      match r.json with
      | none => .crashed logs [] "JSONDecodeError"
      | some j =>
        .exited (logs ++ [e.msg ++ ":" ++ j.pyRepr]) [e.msg ++ " -- " ++ j.pyRepr]
  | .connectionErrorClass => .exited (logs ++ [e.msg]) [connErrPrint e.msg]
  | .requestErrorClass => .exited (logs ++ [e.msg]) [requestErrMsg e.msg]

/-- The `else` branch shared by both paths: try `response.json()`; on
success log the success line and return the data; on a decode failure log
and print the generic message, then read `response.headers['Content-Type']`
(an unguarded lookup - `KeyError` if the header is absent), print the
HTML hint exactly when that value is `'text/html'`, and `exit()`. -/
def decodeResponse (args : Args) (logs : List String) (r : Response) : FetchResult :=
  match r.json with
  | some d => .returns d (logs ++ [successMsg args])
  | none =>
    let logs2 := logs ++ [decodeFailMsg]
    match r.headers "Content-Type" with
    | none => .crashed logs2 [decodeFailMsg] "KeyError: Content-Type"
    | some ct =>
      if ct = "text/html" then
        .exited (logs2 ++ [htmlHintMsg]) [decodeFailMsg, htmlHintMsg]
      else
        .exited logs2 [decodeFailMsg]

/-- `getAllTableRecords(args, application, query='')`: logs the info line,
issues the GET (outcome supplied as `net`), runs `raise_for_status`, and
dispatches to the `except` ladder or the decode branch. -/
def getAllTableRecords (args : Args) (application : String) (query : String)
    (net : GetOutcome) : FetchResult :=
  let url := tableUrl args.instanceUrl application
  let logs := [retrievingMsg args]
  match net with
  | .exn e => handleRequestError getConnectionErrMsg logs none e
  | .resp r =>
    match raiseForStatus r url with
    | some e => handleRequestError getConnectionErrMsg logs (some r) e
    | none => decodeResponse args logs r

/-- `createRecord(args, application, query='')`: same structure as
`getAllTableRecords` with the create-path info line and connection-error
printout; the POST it issues is `createRecordRequest`. -/
def createRecord (args : Args) (application : String) (query : String)
    (net : GetOutcome) : FetchResult :=
  let url := tableUrl args.instanceUrl application
  let logs := [creatingMsg args]
  match net with
  | .exn e => handleRequestError createConnectionErrMsg logs none e
  | .resp r =>
    match raiseForStatus r url with
    | some e => handleRequestError createConnectionErrMsg logs (some r) e
    | none => decodeResponse args logs r

/- ## The business-rule heuristic -/

/-- The loop test `rule["sys_created_by"] != rule["sys_updated_by"]`:
`none` models the `KeyError` raised by an absent key (left subscript
evaluated first). -/
def customBusRuleTest (rule : Json) : Option Bool :=
  match rule.lookup "sys_created_by" with
  | none => none
  | some a =>
    match rule.lookup "sys_updated_by" with
    | none => none
    | some b => some (decide (a ≠ b))

/-- The `for rule in busRules["result"]` loop body: append the rule when
the test holds; a `KeyError` aborts the whole call (`none`). -/
def identifyCustomBusinessRulesLoop : List Json → Option (List Json)
  | [] => some []
  | rule :: rest =>
    match customBusRuleTest rule with
    | none => none
    | some true => (identifyCustomBusinessRulesLoop rest).map (fun rs => rule :: rs)
    | some false => identifyCustomBusinessRulesLoop rest

/-- `identifyCustomBusinessRules(busRules)`: iterates `busRules["result"]`
and collects the rules whose creator differs from their last editor.
`none` models the uncaught exception raised when `busRules` has no
`result` array or a rule lacks one of the compared keys. -/
def identifyCustomBusinessRules (busRules : Json) : Option (List Json) :=
  match busRules.lookup "result" with
  | some (.arr rules) => identifyCustomBusinessRulesLoop rules.toList
  | _ => none

/- ## String containment -/

/-- `sub` occurs as a contiguous substring of `s`. -/
def strContains (s sub : String) : Prop := sub.data <:+: s.data

/- ## Concrete example values (used by witnesses and counterexamples) -/

/-- Example connection parameters. -/
def argsEx : Args :=
  { instanceUrl := "https://dev.example.com", username := "admin"
    password := "pw", application := "incident" }

/-- A second, different set of connection parameters. -/
def argsEx2 : Args :=
  { instanceUrl := "https://other.example.net", username := "bob"
    password := "pw2", application := "problem" }

/-- Example decoded payload: one record under a `result` key. -/
def jEx1 : Json :=
  .obj (.cons "result"
    (.arr (.cons
      (.obj (.cons "number" (.str "INC001")
            (.cons "description" (.str "test") .nil)))
      .nil))
    .nil)

/-- A 200 response whose body decodes to `jEx1`. -/
def respOk : Response :=
  { status := 200, json := some jEx1
    headers := fun k => if k = "Content-Type" then some "application/json" else none }

/-- A 300 response (non-2xx, but outside [400, 600)) whose body decodes to
`jEx1`. -/
def resp300 : Response :=
  { status := 300, json := some jEx1, headers := fun _ => none }

/-- A 401 response whose error body is not JSON. -/
def resp401NonJson : Response :=
  { status := 401, json := none, headers := fun _ => none }

/-- A decoded JSON error body. -/
def jUnauthorized : Json :=
  .obj (.cons "error" (.obj (.cons "message" (.str "Unauthorized") .nil)) .nil)

/-- A 401 response whose error body decodes to `jUnauthorized`. -/
def resp401Json : Response :=
  { status := 401, json := some jUnauthorized, headers := fun _ => none }

/-- A 200 response with an undecodable body and content type `text/html`. -/
def respHtml : Response :=
  { status := 200, json := none
    headers := fun k => if k = "Content-Type" then some "text/html" else none }

/-- A 200 response with an undecodable body and no Content-Type header. -/
def respNoCT : Response :=
  { status := 200, json := none, headers := fun _ => none }

/-- A plain connection error. -/
def connEx : ReqException :=
  { isHTTPError := false, isConnectionError := true, msg := "conn refused" }

/-- A hypothetical exception that is an instance of both `HTTPError` and
`ConnectionError`. -/
def dualEx : ReqException :=
  { isHTTPError := true, isConnectionError := true, msg := "dual" }

/-- The payload shape named by the spec: a `request` element holding an
`entry` with `short_description`, `urgency` and `impact` children. -/
def xmlShapeOk : Xml → Bool
  | .element rtag _ [.element etag _ [.element t1 _ [], .element t2 _ [], .element t3 _ []]] =>
    rtag == "request" && etag == "entry" &&
    t1 == "short_description" && t2 == "urgency" && t3 == "impact"
  | _ => false

/-- A business rule whose creator and last editor differ. -/
def ruleA : Json :=
  .obj (.cons "sys_created_by" (.str "alice")
       (.cons "sys_updated_by" (.str "bob")
       (.cons "sys_name" (.str "ruleA") .nil)))

/-- A business rule whose creator and last editor agree. -/
def ruleB : Json :=
  .obj (.cons "sys_created_by" (.str "carol")
       (.cons "sys_updated_by" (.str "carol")
       (.cons "sys_name" (.str "ruleB") .nil)))

/-- The rules of `busRulesEx` as a JSON array. -/
def busRulesArrEx : JsonArr := .cons ruleA (.cons ruleB .nil)

/-- A decoded business-rule payload with the two rules above. -/
def busRulesEx : Json := .obj (.cons "result" (.arr busRulesArrEx) .nil)

/- ## Helper lemmas about string containment -/

/-- A string is contained in any extension of it to the right. -/
theorem strContains_left (a b : String) : strContains (a ++ b) a :=
  ⟨[], b.data, by simp⟩

/-- A string is contained in any extension of it to the left. -/
theorem strContains_right (a b : String) : strContains (a ++ b) b :=
  ⟨a.data, [], by simp⟩

/-- Containment is preserved by appending on the right. -/
theorem strContains_mono_right (s t sub : String) (h : strContains s sub) :
    strContains (s ++ t) sub := by
  obtain ⟨p, q, hpq⟩ := h
  exact ⟨p, q ++ t.data, by simp [← hpq]⟩

/-- Containment is preserved by appending on the left. -/
theorem strContains_mono_left (s t sub : String) (h : strContains s sub) :
    strContains (t ++ s) sub := by
  obtain ⟨p, q, hpq⟩ := h
  exact ⟨t.data ++ p, q, by simp [← hpq]⟩

/-- The status code (as a decimal string) occurs in the `HTTPError` text. -/
theorem httpErrorText_contains_status (status : Nat) (url : String) :
    strContains (httpErrorText status url) (toString status) := by
  unfold httpErrorText
  by_cases h : status < 500 <;> simp only [h, if_true, if_false, ite_true, ite_false] <;>
    exact strContains_mono_right _ _ _ (strContains_left _ _)

/- ## Claim theorems -/

/-- C1: for every GET call in which the HTTP request succeeds with a 2xx
status and the response body decodes as JSON, `getAllTableRecords` returns
the decoded structure exactly as decoded, unmodified (object fields keep
their keys and their order). -/
theorem c1_success_returns_decoded_payload (args : Args) (application query : String)
    (r : Response) (j : Json) (h2 : 200 ≤ r.status) (h3 : r.status < 300)
    (hj : r.json = some j) :
    (getAllTableRecords args application query (.resp r)).returnedData = some j := by
  have hns : ¬ (400 ≤ r.status ∧ r.status < 600) := by omega
  simp [getAllTableRecords, raiseForStatus, hns, decodeResponse, hj, FetchResult.returnedData]

/-- Witness for C1: a 200 response decoding to `jEx1` is returned as is. -/
theorem c1_witness :
    (getAllTableRecords argsEx "incident" "" (.resp respOk)).returnedData = some jEx1 :=
  c1_success_returns_decoded_payload argsEx "incident" "" respOk jEx1
    (by decide) (by decide) rfl

/-- C7: for every base address and resource name, both the read path and
the create path target `{base}/api/now/table/{resourceName}`. -/
theorem c7_request_url_concatenation (args : Args) (application query : String) :
    (getAllTableRecordsRequest args application query).url =
      args.instanceUrl ++ "/api/now/table/" ++ application ∧
    (createRecordRequest args application query).url =
      args.instanceUrl ++ "/api/now/table/" ++ application :=
  ⟨rfl, rfl⟩

/-- C10: `BuildXML` is a constant function - it always returns the same
serialized XML string, with short_description text "The sky is falling!",
urgency "2" and impact "2" - and the body `createRecord` sends is that
fixed string, independent of every caller-supplied input. -/
theorem c10_buildxml_constant_body (args : Args) (application query : String) :
    BuildXML =
      "<request><entry><short_description>The sky is falling!</short_description><urgency>2</urgency><impact>2</impact></entry></request>" ∧
    (createRecordRequest args application query).body = some BuildXML :=
  ⟨rfl, rfl⟩

/-- C4: for every connectivity exception (a `ConnectionError` that is not
an `HTTPError`), `getAllTableRecords` exits with the generic connectivity
message and never reaches the JSON-decoding step: the result is fully
determined by the exception alone - no response body is consulted - and
no data is returned. -/
theorem c4_connection_error_exits (args : Args) (application query : String)
    (e : ReqException) (hh : e.isHTTPError = false) (hc : e.isConnectionError = true) :
    getAllTableRecords args application query (.exn e) =
      .exited [retrievingMsg args, e.msg] [getConnectionErrMsg e.msg] ∧
    strContains (getConnectionErrMsg e.msg) connectionHintText ∧
    (getAllTableRecords args application query (.exn e)).returnedData = none := by
  have hmain : getAllTableRecords args application query (.exn e) =
      .exited [retrievingMsg args, e.msg] [getConnectionErrMsg e.msg] := by
    simp [getAllTableRecords, handleRequestError, classifyRequestError, hh, hc]
  refine ⟨hmain, ?_, by rw [hmain]; rfl⟩
  simp only [getConnectionErrMsg]
  exact strContains_mono_right _ _ _ (strContains_left _ _)

/-- Witness for C4: the connection error `connEx` exits with the
connectivity message. -/
theorem c4_witness :
    getAllTableRecords argsEx "incident" "" (.exn connEx) =
      .exited [retrievingMsg argsEx, connEx.msg] [getConnectionErrMsg connEx.msg] ∧
    strContains (getConnectionErrMsg connEx.msg) connectionHintText ∧
    (getAllTableRecords argsEx "incident" "" (.exn connEx)).returnedData = none :=
  c4_connection_error_exits argsEx "incident" "" connEx rfl rfl

/-- C5: an exception that is an instance of both `HTTPError` and
`ConnectionError` is caught by the `HTTPError` clause (the clauses are
tried in source order), so it is never reported as a connection error:
on such an exception the function crashes in the `HTTPError` clause
(`response` is unbound there) and the connection-error printout is not
produced. -/
theorem c5_http_error_clause_precedence (args : Args) (application query : String)
    (e : ReqException) (hh : e.isHTTPError = true) (hc : e.isConnectionError = true) :
    classifyRequestError e = RequestErrorClass.httpErrorClass ∧
    getAllTableRecords args application query (.exn e) =
      .crashed [retrievingMsg args] [] "UnboundLocalError: response" ∧
    (getAllTableRecords args application query (.exn e)).printedLines ≠
      [getConnectionErrMsg e.msg] := by
  have hcls : classifyRequestError e = RequestErrorClass.httpErrorClass := by
    simp [classifyRequestError, hh]
  have hmain : getAllTableRecords args application query (.exn e) =
      .crashed [retrievingMsg args] [] "UnboundLocalError: response" := by
    simp [getAllTableRecords, handleRequestError, hcls]
  refine ⟨hcls, hmain, by rw [hmain]; simp [FetchResult.printedLines]⟩

/-- Witness for C5: the dual-class exception `dualEx` is classified as an
HTTP error and not reported as a connection error. -/
theorem c5_witness :
    classifyRequestError dualEx = RequestErrorClass.httpErrorClass ∧
    getAllTableRecords argsEx "incident" "" (.exn dualEx) =
      .crashed [retrievingMsg argsEx] [] "UnboundLocalError: response" ∧
    (getAllTableRecords argsEx "incident" "" (.exn dualEx)).printedLines ≠
      [getConnectionErrMsg dualEx.msg] :=
  c5_http_error_clause_precedence argsEx "incident" "" dualEx rfl rfl

/-- C9: in the decode-failure branch of both paths, the Content-Type
header is read with an unguarded lookup; on a response without that
header the lookup's `KeyError` terminates the function before its own
`exit()` call - the result is a crash carrying only the generic
decode-failure output. -/
theorem c9_missing_content_type_header_crashes (args : Args) (application query : String)
    (r : Response) (h2 : 200 ≤ r.status) (h3 : r.status < 300)
    (hj : r.json = none) (hct : r.headers "Content-Type" = none) :
    getAllTableRecords args application query (.resp r) =
      .crashed [retrievingMsg args, decodeFailMsg] [decodeFailMsg] "KeyError: Content-Type" ∧
    createRecord args application query (.resp r) =
      .crashed [creatingMsg args, decodeFailMsg] [decodeFailMsg] "KeyError: Content-Type" := by
  have hns : ¬ (400 ≤ r.status ∧ r.status < 600) := by omega
  constructor <;>
    simp [getAllTableRecords, createRecord, raiseForStatus, hns, decodeResponse, hj, hct]

/-- Witness for C9: a 200 response with an undecodable body and no
Content-Type header crashes both paths with a `KeyError`. -/
theorem c9_witness :
    getAllTableRecords argsEx "incident" "" (.resp respNoCT) =
      .crashed [retrievingMsg argsEx, decodeFailMsg] [decodeFailMsg] "KeyError: Content-Type" ∧
    createRecord argsEx "incident" "" (.resp respNoCT) =
      .crashed [creatingMsg argsEx, decodeFailMsg] [decodeFailMsg] "KeyError: Content-Type" :=
  c9_missing_content_type_header_crashes argsEx "incident" "" respNoCT
    (by decide) (by decide) rfl rfl

/-- C3: for every 2xx response whose body fails JSON decoding, the process
terminates (by `exit()` or, without a Content-Type header, by the
`KeyError` of C9), and the printed output includes the "instance active"
hint exactly when the Content-Type header value is the string `text/html`;
any other content type yields only the generic decode-failure message. -/
theorem c3_decode_failure_hint_iff (args : Args) (application query : String)
    (r : Response) (h2 : 200 ≤ r.status) (h3 : r.status < 300) (hj : r.json = none) :
    (getAllTableRecords args application query (.resp r)).terminates = true ∧
    (htmlHintMsg ∈ (getAllTableRecords args application query (.resp r)).printedLines ↔
       r.headers "Content-Type" = some "text/html") ∧
    (getAllTableRecords args application query (.resp r)).printedLines =
      (if r.headers "Content-Type" = some "text/html"
       then [decodeFailMsg, htmlHintMsg] else [decodeFailMsg]) := by
  have hns : ¬ (400 ≤ r.status ∧ r.status < 600) := by omega
  have hne : htmlHintMsg ≠ decodeFailMsg := by decide
  rcases hct : r.headers "Content-Type" with _ | ct
  · simp [getAllTableRecords, raiseForStatus, hns, decodeResponse, hj, hct,
      FetchResult.terminates, FetchResult.printedLines, hne]
  · by_cases hml : ct = "text/html"
    · subst hml
      simp [getAllTableRecords, raiseForStatus, hns, decodeResponse, hj, hct,
        FetchResult.terminates, FetchResult.printedLines]
    · simp [getAllTableRecords, raiseForStatus, hns, decodeResponse, hj, hct,
        FetchResult.terminates, FetchResult.printedLines, hml, hne]

/-- Witness for C3: a 200 response with undecodable body and content type
`text/html` terminates and prints the hint. -/
theorem c3_witness :
    (getAllTableRecords argsEx "incident" "" (.resp respHtml)).terminates = true ∧
    (htmlHintMsg ∈ (getAllTableRecords argsEx "incident" "" (.resp respHtml)).printedLines ↔
       respHtml.headers "Content-Type" = some "text/html") ∧
    (getAllTableRecords argsEx "incident" "" (.resp respHtml)).printedLines =
      (if respHtml.headers "Content-Type" = some "text/html"
       then [decodeFailMsg, htmlHintMsg] else [decodeFailMsg]) :=
  c3_decode_failure_hint_iff argsEx "incident" "" respHtml (by decide) (by decide) rfl

/-- C2 counterexample: the claim quantifies over every non-2xx status, but
`raise_for_status` only raises for statuses in [400, 600).  On `resp300`
(status 300, JSON body) `getAllTableRecords` returns the decoded body to
the caller instead of terminating; and on `resp401NonJson` (status 401,
non-JSON body) the `except` handler itself crashes evaluating
`response.json()`, so no error line containing the status is ever logged -
the crash carries only the initial info line. -/
theorem c2_counterexample :
    (¬ (200 ≤ resp300.status ∧ resp300.status < 300) ∧
      (getAllTableRecords argsEx "incident" "" (.resp resp300)).returnedData = some jEx1) ∧
    (¬ (200 ≤ resp401NonJson.status ∧ resp401NonJson.status < 300) ∧
      getAllTableRecords argsEx "incident" "" (.resp resp401NonJson) =
        .crashed [retrievingMsg argsEx] [] "JSONDecodeError") :=
  ⟨⟨by decide, rfl⟩, ⟨by decide, rfl⟩⟩

/-- C2 (amended): for every response with an HTTP status in [400, 600)
whose body decodes as JSON, `getAllTableRecords` terminates the process by
`exit()` after logging an error line that contains both the status and the
decoded response body; under this condition it never returns a value. -/
theorem c2_amended_http_error_terminates (args : Args) (application query : String)
    (r : Response) (j : Json) (h4 : 400 ≤ r.status) (h6 : r.status < 600)
    (hj : r.json = some j) :
    getAllTableRecords args application query (.resp r) =
      .exited
        [retrievingMsg args,
         httpErrorText r.status (tableUrl args.instanceUrl application) ++ ":" ++ j.pyRepr]
        [httpErrorText r.status (tableUrl args.instanceUrl application) ++ " -- " ++ j.pyRepr] ∧
    strContains
      (httpErrorText r.status (tableUrl args.instanceUrl application) ++ ":" ++ j.pyRepr)
      (toString r.status) ∧
    strContains
      (httpErrorText r.status (tableUrl args.instanceUrl application) ++ ":" ++ j.pyRepr)
      j.pyRepr ∧
    (getAllTableRecords args application query (.resp r)).returnedData = none := by
  have hc : 400 ≤ r.status ∧ r.status < 600 := ⟨h4, h6⟩
  have hmain : getAllTableRecords args application query (.resp r) =
      .exited
        [retrievingMsg args,
         httpErrorText r.status (tableUrl args.instanceUrl application) ++ ":" ++ j.pyRepr]
        [httpErrorText r.status (tableUrl args.instanceUrl application) ++ " -- " ++ j.pyRepr] := by
    simp [getAllTableRecords, raiseForStatus, hc, handleRequestError, classifyRequestError, hj]
  refine ⟨hmain, ?_, ?_, by rw [hmain]; rfl⟩
  · exact strContains_mono_right _ _ _
      (strContains_mono_right _ _ _ (httpErrorText_contains_status _ _))
  · exact strContains_right _ _

/-- Witness for the amended C2: a 401 whose error body decodes to
`jUnauthorized` exits with the status and body in the logged line. -/
theorem c2_witness :
    getAllTableRecords argsEx "incident" "" (.resp resp401Json) =
      .exited
        [retrievingMsg argsEx,
         httpErrorText resp401Json.status (tableUrl argsEx.instanceUrl "incident")
           ++ ":" ++ jUnauthorized.pyRepr]
        [httpErrorText resp401Json.status (tableUrl argsEx.instanceUrl "incident")
           ++ " -- " ++ jUnauthorized.pyRepr] ∧
    strContains
      (httpErrorText resp401Json.status (tableUrl argsEx.instanceUrl "incident")
        ++ ":" ++ jUnauthorized.pyRepr)
      (toString resp401Json.status) ∧
    strContains
      (httpErrorText resp401Json.status (tableUrl argsEx.instanceUrl "incident")
        ++ ":" ++ jUnauthorized.pyRepr)
      jUnauthorized.pyRepr ∧
    (getAllTableRecords argsEx "incident" "" (.resp resp401Json)).returnedData = none :=
  c2_amended_http_error_terminates argsEx "incident" "" resp401Json jUnauthorized
    (by decide) (by decide) rfl

/-- The except-ladder outcome class does not depend on the path-specific
printout or the accumulated log lines. -/
theorem handleRequestError_kind (f g : String → String) (l1 l2 : List String)
    (ro : Option Response) (e : ReqException) :
    (handleRequestError f l1 ro e).kind = (handleRequestError g l2 ro e).kind := by
  unfold handleRequestError
  cases classifyRequestError e with
  | httpErrorClass =>
    cases ro with
    | none => rfl
    | some r => rcases hj : r.json with _ | j <;> simp [hj, FetchResult.kind]
  | connectionErrorClass => rfl
  | requestErrorClass => rfl

/-- No except clause returns data to the caller. -/
theorem handleRequestError_returnedData (f : String → String) (l : List String)
    (ro : Option Response) (e : ReqException) :
    (handleRequestError f l ro e).returnedData = none := by
  unfold handleRequestError
  cases classifyRequestError e with
  | httpErrorClass =>
    cases ro with
    | none => rfl
    | some r => rcases hj : r.json with _ | j <;> simp [hj, FetchResult.returnedData]
  | connectionErrorClass => rfl
  | requestErrorClass => rfl

/-- The decode branch's outcome class depends only on the response. -/
theorem decodeResponse_kind (a1 a2 : Args) (l1 l2 : List String) (r : Response) :
    (decodeResponse a1 l1 r).kind = (decodeResponse a2 l2 r).kind := by
  unfold decodeResponse
  cases r.json with
  | some d => rfl
  | none =>
    cases r.headers "Content-Type" with
    | none => rfl
    | some ct => by_cases h : ct = "text/html" <;> simp [h, FetchResult.kind]

/-- The decode branch returns exactly the decode outcome of the body. -/
theorem decodeResponse_returnedData (a : Args) (l : List String) (r : Response) :
    (decodeResponse a l r).returnedData = r.json := by
  unfold decodeResponse
  cases hj : r.json with
  | some d => rfl
  | none =>
    cases r.headers "Content-Type" with
    | none => rfl
    | some ct => by_cases h : ct = "text/html" <;> simp [h, FetchResult.returnedData]

/-- C6 counterexample: the POST body is not caller-supplied - two calls
with entirely different connection parameters, resource and filter send
the identical fixed payload `BuildXML`. -/
theorem c6_counterexample :
    argsEx ≠ argsEx2 ∧
    (createRecordRequest argsEx "incident" "").body =
      (createRecordRequest argsEx2 "problem" "sysparm_query=active=true").body ∧
    (createRecordRequest argsEx "incident" "").body = some BuildXML :=
  ⟨by decide, rfl, rfl⟩

/-- C6 (amended): the create path issues an HTTP POST with headers
`Content-Type: application/xml` and `Accept: application/json`, whose
payload is the fixed `BuildXML` string (not caller-supplied), conforming
to the shape `<request><entry><short_description/><urgency/><impact/>
</entry></request>`; and it classifies the response identically to the
read path (same outcome class and same returned data for every network
outcome). -/
theorem c6_amended_create_path (args : Args) (application query : String) (net : GetOutcome) :
    (createRecordRequest args application query).method = "POST" ∧
    (createRecordRequest args application query).headers =
      [("Content-Type", "application/xml"), ("Accept", "application/json")] ∧
    (createRecordRequest args application query).body = some BuildXML ∧
    (createRecord args application query net).kind =
      (getAllTableRecords args application query net).kind ∧
    (createRecord args application query net).returnedData =
      (getAllTableRecords args application query net).returnedData ∧
    xmlShapeOk buildXMLTree = true := by
  refine ⟨rfl, rfl, rfl, ?_, ?_, rfl⟩
  · cases net with
    | exn e =>
      simp only [createRecord, getAllTableRecords]
      exact handleRequestError_kind _ _ _ _ none e
    | resp r =>
      simp only [createRecord, getAllTableRecords]
      cases raiseForStatus r (tableUrl args.instanceUrl application) with
      | none => exact decodeResponse_kind args args _ _ r
      | some e => exact handleRequestError_kind _ _ _ _ (some r) e
  · cases net with
    | exn e =>
      simp only [createRecord, getAllTableRecords]
      rw [handleRequestError_returnedData, handleRequestError_returnedData]
    | resp r =>
      simp only [createRecord, getAllTableRecords]
      cases raiseForStatus r (tableUrl args.instanceUrl application) with
      | none => rw [decodeResponse_returnedData, decodeResponse_returnedData]
      | some e => rw [handleRequestError_returnedData, handleRequestError_returnedData]

/-- The loop of `identifyCustomBusinessRules` is a filter once every rule
carries both compared keys. -/
theorem identifyCustomBusinessRulesLoop_eq_filter (rs : List Json)
    (hkeys : ∀ r ∈ rs,
      (r.lookup "sys_created_by").isSome ∧ (r.lookup "sys_updated_by").isSome) :
    identifyCustomBusinessRulesLoop rs =
      some (rs.filter fun r =>
        decide (r.lookup "sys_created_by" ≠ r.lookup "sys_updated_by")) := by
  induction rs with
  | nil => rfl
  | cons r rest ih =>
    obtain ⟨hcb, hub⟩ := hkeys r (List.mem_cons_self r rest)
    obtain ⟨a, ha⟩ := Option.isSome_iff_exists.mp hcb
    obtain ⟨b, hb⟩ := Option.isSome_iff_exists.mp hub
    have ih2 := ih (fun x hx => hkeys x (List.mem_cons_of_mem r hx))
    by_cases hab : a = b
    · subst hab
      simp [identifyCustomBusinessRulesLoop, customBusRuleTest, ha, hb, ih2,
        List.filter_cons]
    · simp [identifyCustomBusinessRulesLoop, customBusRuleTest, ha, hb, ih2,
        List.filter_cons, hab]

/-- C8: for every payload whose `result` value is a sequence of records
each carrying `sys_created_by` and `sys_updated_by`,
`identifyCustomBusinessRules` returns exactly the records whose two values
differ, in their original order. -/
theorem c8_identify_custom_rules_filter (busRules : Json) (rules : JsonArr)
    (hres : busRules.lookup "result" = some (.arr rules))
    (hkeys : ∀ r ∈ rules.toList,
      (r.lookup "sys_created_by").isSome ∧ (r.lookup "sys_updated_by").isSome) :
    identifyCustomBusinessRules busRules =
      some (rules.toList.filter fun r =>
        decide (r.lookup "sys_created_by" ≠ r.lookup "sys_updated_by")) := by
  unfold identifyCustomBusinessRules
  rw [hres]
  exact identifyCustomBusinessRulesLoop_eq_filter rules.toList hkeys

/-- Witness for C8: on `busRulesEx` the function keeps exactly `ruleA`
(creator alice, editor bob) and drops `ruleB` (creator = editor). -/
theorem c8_witness :
    identifyCustomBusinessRules busRulesEx =
      some (busRulesArrEx.toList.filter fun r =>
        decide (r.lookup "sys_created_by" ≠ r.lookup "sys_updated_by")) :=
  c8_identify_custom_rules_filter busRulesEx busRulesArrEx rfl (by decide)
